import Mathlib

/-!
Shallow embedding of the hardware flow-offload translation and tracking engine
of the repository: the flower translation engine, the dual-index offload cache
and the priority allocator of `lib/netdev-tc-offloads.c`, and the tunnel vport
provisioner of `lib/dpif-netlink-rtnl.c`.

Machine integers are modelled as `Nat` (with explicit `% 2 ^ w` where the
source truncates, e.g. the `uint16_t` priority field) or `Int` (for interface
indexes, which the source uses as `int` and compares against 0).  The netlink
transport is an external collaborator: its replies are passed in as explicit
oracle values, and the requests the engine issues are collected in a list so
that theorems can speak about which kernel calls were made and in which order.
-/

namespace OvsOffload

/-- errno ENOENT, "not found". -/
def ENOENT : Nat := 2

/-- errno EEXIST, "already exists". -/
def EEXIST : Nat := 17

/-- errno EINVAL, "invalid argument". -/
def EINVAL : Nat := 22

/-- errno EOPNOTSUPP, "operation not supported". -/
def EOPNOTSUPP : Nat := 95

/-- VLAN_VID_MASK from packets.h: the 12 VID bits of a TCI. -/
def VLAN_VID_MASK : Nat := 0x0fff

/-- VLAN_PCP_MASK from packets.h: the 3 PCP bits of a TCI. -/
def VLAN_PCP_MASK : Nat := 0xe000

/-- VLAN_PCP_SHIFT from packets.h. -/
def VLAN_PCP_SHIFT : Nat := 13

/-- VLAN_CFI from packets.h: the CFI bit of a TCI. -/
def VLAN_CFI : Nat := 0x1000

/-- EtherType of an 802.1Q VLAN tagged frame. -/
def ETH_TYPE_VLAN : Nat := 0x8100

/-- EtherType of IPv4 (ETH_P_IP and ETH_TYPE_IP share this value). -/
def ETH_P_IP : Nat := 0x0800

/-- EtherType of IPv6. -/
def ETH_P_IPV6 : Nat := 0x86dd

/-- IP protocol numbers used by test_key_and_mask. -/
def IPPROTO_ICMP : Nat := 1

/-- IP protocol number of IGMP. -/
def IPPROTO_IGMP : Nat := 2

/-- IP protocol number of TCP. -/
def IPPROTO_TCP : Nat := 6

/-- IP protocol number of ICMPv6. -/
def IPPROTO_ICMPV6 : Nat := 58

/-- DSCP bits of the IPv4 TOS byte. -/
def IP_DSCP_MASK : Nat := 0xfc

/-- ECN bits of the IPv4 TOS byte. -/
def IP_ECN_MASK : Nat := 0x03

/-- MPLS label bits of an LSE. -/
def MPLS_LABEL_MASK : Nat := 0xfffff000

/-- MPLS TC bits of an LSE. -/
def MPLS_TC_MASK : Nat := 0x00000e00

/-- MPLS bottom-of-stack bit of an LSE. -/
def MPLS_BOS_MASK : Nat := 0x00000100

/-- MPLS TTL bits of an LSE. -/
def MPLS_TTL_MASK : Nat := 0x000000ff

/-- TCP_FLAGS extracts the 12 flag bits of tcp_ctl. -/
def TCP_FLAGS_MASK : Nat := 0x0fff

/-- Modulus of the `uint16_t` priority field of `struct prio_map_data`. -/
def UINT16_LIMIT : Nat := 65536

/-- UINT32_MAX, used as the exact match mask for the ingress port. -/
def UINT32_MAX : Nat := 4294967295

/-- All-ones Ethernet address, the result of `memset(&mac, 0xFF, 6)`. -/
def MAC_ALL_ONES : Nat := 0xffffffffffff

/-- 128-bit opaque flow identifier (`ovs_u128`), compared only for equality. -/
abbrev UFID := Nat

/-- Network device handle: an identity plus the interface index that
`netdev_get_ifindex` reports for it (negative means the lookup fails). -/
structure Netdev where
  id : Nat
  ifindex : Int
deriving DecidableEq

/-- The key (or mask) half of `struct tc_flower`: the fields of
`struct tc_flower_key` from tc.h that `lib/netdev-tc-offloads.c` populates. -/
structure TcFlowerKey where
  eth_type : Nat := 0
  vlan_id : Nat := 0
  vlan_prio : Nat := 0
  encap_eth_type : Nat := 0
  dst_mac : Nat := 0
  src_mac : Nat := 0
  ip_proto : Nat := 0
  ipv4_src : Nat := 0
  ipv4_dst : Nat := 0
  ipv6_src : Nat := 0
  ipv6_dst : Nat := 0
  src_port : Nat := 0
  dst_port : Nat := 0
deriving DecidableEq

/-- The tunnel match sub-record of `struct tc_flower`. -/
structure TcTunnel where
  tunnel : Bool := false
  id : Nat := 0
  ipv4_src : Nat := 0
  ipv4_dst : Nat := 0
  ipv6_src : Nat := 0
  ipv6_dst : Nat := 0
  tp_src : Nat := 0
  tp_dst : Nat := 0
deriving DecidableEq

/-- The tunnel-set action sub-record of `struct tc_flower`. -/
structure TcFlowerSet where
  set : Bool := false
  id : Nat := 0
  ipv4_src : Nat := 0
  ipv4_dst : Nat := 0
  ipv6_src : Nat := 0
  ipv6_dst : Nat := 0
  tp_src : Nat := 0
  tp_dst : Nat := 0
deriving DecidableEq

/-- `struct tc_flower`: the hardware flower record.  The `act_cookie` opaque
byte string is modelled as an optional UFID (empty cookie = `none`), which is
exactly how the source reads it back (`*ufid = *(ovs_u128 *) cookie.data`). -/
structure TcFlower where
  key : TcFlowerKey := {}
  mask : TcFlowerKey := {}
  ifindex_out : Int := 0
  vlan_pop : Nat := 0
  vlan_push_id : Nat := 0
  vlan_push_prio : Nat := 0
  tunnel : TcTunnel := {}
  set : TcFlowerSet := {}
  act_cookie : Option UFID := none
  prio : Nat := 0
  handle : Nat := 0
  n_packets : Nat := 0
  n_bytes : Nat := 0
  lastused : Nat := 0
deriving DecidableEq

/-- The generic flow key (`struct flow`): the fields `netdev_tc_flow_put` and
`test_key_and_mask` read, both on the key side and the wildcard-mask side. -/
structure Flow where
  dl_type : Nat := 0
  vlan_tci : Nat := 0
  dl_dst : Nat := 0
  dl_src : Nat := 0
  nw_proto : Nat := 0
  nw_src : Nat := 0
  nw_dst : Nat := 0
  ipv6_src : Nat := 0
  ipv6_dst : Nat := 0
  tp_src : Nat := 0
  tp_dst : Nat := 0
  in_port : Nat := 0
  tun_id : Nat := 0
  tun_ip_src : Nat := 0
  tun_ip_dst : Nat := 0
  tun_ipv6_src : Nat := 0
  tun_ipv6_dst : Nat := 0
  tun_tp_src : Nat := 0
  tun_tp_dst : Nat := 0
  pkt_mark : Nat := 0
  recirc_id : Nat := 0
  dp_hash : Nat := 0
  conj_id : Nat := 0
  skb_priority : Nat := 0
  actset_output : Nat := 0
  ct_state : Nat := 0
  ct_zone : Nat := 0
  ct_mark : Nat := 0
  ct_label : Nat := 0
  regs : List Nat := []
  metadata : Nat := 0
  nw_tos : Nat := 0
  nw_ttl : Nat := 0
  mpls_lse0 : Nat := 0
  mpls_lse1 : Nat := 0
  mpls_lse2 : Nat := 0
  nw_frag : Nat := 0
  tcp_flags : Nat := 0
deriving DecidableEq

/-- `struct match`: a flow key plus a parallel wildcard mask. -/
structure Match where
  flow : Flow := {}
  masks : Flow := {}
deriving DecidableEq

/-- `struct dpif_flow_stats` (only the fields this code touches). -/
structure DpifFlowStats where
  n_packets : Nat := 0
  n_bytes : Nat := 0
  used : Nat := 0
deriving DecidableEq

/-- One attribute of a nested OVS_KEY_ATTR_TUNNEL list. -/
inductive TunKeyAttr
  | id (v : Nat)
  | ipv4_src (v : Nat)
  | ipv4_dst (v : Nat)
  | ipv6_src (v : Nat)
  | ipv6_dst (v : Nat)
  | tp_src (v : Nat)
  | tp_dst (v : Nat)
deriving DecidableEq

/-- One attribute of a nested OVS_ACTION_ATTR_SET list: either a tunnel key
sub-record or some other key attribute, identified by its numeric type. -/
inductive SetAttr
  | tunnel (attrs : List TunKeyAttr)
  | other (attrType : Nat)
deriving DecidableEq

/-- One generic datapath action, as the netlink attribute list presents it;
`other` stands for any action attribute type the source does not recognize. -/
inductive Action
  | output (port : Nat)
  | push_vlan (vlan_tci : Nat)
  | pop_vlan
  | set (attrs : List SetAttr)
  | other (actType : Nat)
deriving DecidableEq

/-- One request issued over the netlink transport by this layer. -/
inductive TcRequest
  | del_filter (ifindex : Int) (prio : Nat) (handle : Nat)
  | replace_flower (ifindex : Int) (prio : Nat) (handle : Nat) (flower : TcFlower)
  | get_flower (ifindex : Int) (prio : Nat) (handle : Nat)
  | flush (ifindex : Int)
deriving DecidableEq

/-- `struct ufid_to_tc_data`: one cache entry, stored in both indexes. -/
structure UfidTcData where
  ufid : UFID
  prio : Nat
  handle : Nat
  ifindex : Int
  netdev : Netdev
deriving DecidableEq

/-- The two jointly updated global hash maps `ufid_to_tc` and `tc_to_ufid`,
modelled as association lists (the hash buckets only affect lookup speed). -/
structure CacheState where
  ufid_to_tc : List UfidTcData
  tc_to_ufid : List UfidTcData
deriving DecidableEq

/-- The match predicate of the `ufid_to_tc` lookups: `ovs_u128_equals`. -/
def ufid_matches (u : UFID) (d : UfidTcData) : Bool :=
  d.ufid == u

/-- The match predicate of the `tc_to_ufid` lookups: equal prio, handle and
interface index. -/
def loc_matches (prio handle : Nat) (ifindex : Int) (d : UfidTcData) : Bool :=
  d.prio == prio && d.handle == handle && d.ifindex == ifindex

/-- `del_ufid_tc_mapping`: remove the entry for `ufid` from `ufid_to_tc` and
the matching (prio, handle, ifindex) entry from `tc_to_ufid`; no-op when the
ufid is absent. -/
def del_ufid_tc_mapping (st : CacheState) (ufid : UFID) : CacheState :=
  match st.ufid_to_tc.find? (ufid_matches ufid) with
  | none => st
  | some d =>
      { ufid_to_tc := st.ufid_to_tc.eraseP (ufid_matches ufid),
        tc_to_ufid := st.tc_to_ufid.eraseP (loc_matches d.prio d.handle d.ifindex) }

/-- `add_ufid_tc_mapping`: first remove any existing entry for `ufid`, then
insert the new entry into both indexes. -/
def add_ufid_tc_mapping (st : CacheState) (ufid : UFID) (prio handle : Nat)
    (netdev : Netdev) (ifindex : Int) : CacheState :=
  let st := del_ufid_tc_mapping st ufid
  { ufid_to_tc := st.ufid_to_tc ++ [⟨ufid, prio, handle, ifindex, netdev⟩],
    tc_to_ufid := st.tc_to_ufid ++ [⟨ufid, prio, handle, ifindex, netdev⟩] }

/-- `get_ufid_tc_mapping`: look up the entry for `ufid` in `ufid_to_tc`.  The
source returns handle 0 and leaves prio untouched when absent; callers test
the returned handle against 0, which the option result captures. -/
def get_ufid_tc_mapping (st : CacheState) (ufid : UFID) : Option UfidTcData :=
  st.ufid_to_tc.find? (ufid_matches ufid)

/-- `find_ufid`: reverse lookup in `tc_to_ufid` by (prio, handle) and the
interface index of `netdev`. -/
def find_ufid (st : CacheState) (prio handle : Nat) (netdev : Netdev) : Option UFID :=
  (st.tc_to_ufid.find? (loc_matches prio handle netdev.ifindex)).map (fun d => d.ufid)

/-- `struct prio_map_data`: one mask-signature-to-priority mapping. -/
structure PrioMapData where
  mask : TcFlowerKey
  protocol : Nat
  prio : Nat
deriving DecidableEq

/-- The static state of `get_prio_for_tc_flower`: the `prios` table and the
`last_prio` counter. -/
structure PrioState where
  prios : List PrioMapData
  last_prio : Nat
deriving DecidableEq

/-- The signature comparison of `get_prio_for_tc_flower`: byte-equal flower
mask (`memcmp`) plus equal `key.eth_type` protocol. -/
def prio_sig_matches (flower : TcFlower) (d : PrioMapData) : Bool :=
  d.mask == flower.mask && d.protocol == flower.key.eth_type

/-- `get_prio_for_tc_flower`: return the recorded priority for this flower's
mask signature, or allocate the next one (`++last_prio`, truncated to the
`uint16_t` prio field) and record the mapping. -/
def get_prio_for_tc_flower (st : PrioState) (flower : TcFlower) : Nat × PrioState :=
  match st.prios.find? (prio_sig_matches flower) with
  | some d => (d.prio, st)
  | none =>
      let last := st.last_prio + 1
      let p := last % UINT16_LIMIT
      (p, { prios := st.prios ++ [⟨flower.mask, flower.key.eth_type, p⟩],
            last_prio := last })

/-- Run a sequence of `get_prio_for_tc_flower` calls, keeping only the state. -/
def run_prios (st : PrioState) (fs : List TcFlower) : PrioState :=
  fs.foldl (fun s f => (get_prio_for_tc_flower s f).2) st

/-- External environment of the translation engine: the device registry maps
an output port to the interface index of its device (`netdev_hmap_port_get`
followed by `netdev_get_ifindex`), and an interface index back to a port
(`netdev_hmap_port_get_byifidx`, 0 meaning "no such port"). -/
structure OffloadEnv where
  port_to_ifindex : Nat → Int
  port_get_byifidx : Int → Nat

/-- `struct offload_info`: the configured tunnel destination port. -/
structure PutInfo where
  tp_dst_port : Nat := 0

/-- vlan_tci_to_vid from packets.h. -/
def vlan_tci_to_vid (tci : Nat) : Nat :=
  tci &&& VLAN_VID_MASK

/-- vlan_tci_to_pcp from packets.h. -/
def vlan_tci_to_pcp (tci : Nat) : Nat :=
  (tci >>> VLAN_PCP_SHIFT) &&& 0x7

/-- Tunnel and EtherType part of the flower construction in
`netdev_tc_flow_put` (the code before the VLAN block). -/
def tc_flower_base (m : Match) : TcFlower :=
  let key := m.flow
  let mask := m.masks
  let flower : TcFlower := {}
  let flower := if key.tun_id ≠ 0 then
      { flower with tunnel := {
          tunnel := true, id := key.tun_id,
          ipv4_src := key.tun_ip_src, ipv4_dst := key.tun_ip_dst,
          ipv6_src := key.tun_ipv6_src, ipv6_dst := key.tun_ipv6_dst,
          tp_src := key.tun_tp_src, tp_dst := key.tun_tp_dst } }
    else flower
  { flower with key := { flower.key with eth_type := key.dl_type },
                mask := { flower.mask with eth_type := mask.dl_type } }

/-- MAC, IP and transport-port part of the flower construction in
`netdev_tc_flow_put` (the code after the VLAN block).  Note that the
destination MAC mask is overwritten with all-ones (`memset 0xFF`) while the
source MAC mask is copied from the caller's mask. -/
def tc_flower_l3l4 (key mask : Flow) (flower : TcFlower) : TcFlower :=
  let flower := { flower with
      key := { flower.key with dst_mac := key.dl_dst, src_mac := key.dl_src },
      mask := { flower.mask with dst_mac := MAC_ALL_ONES, src_mac := mask.dl_src } }
  let flower := if flower.key.eth_type = ETH_P_IP ∨ flower.key.eth_type = ETH_P_IPV6 then
      { flower with key := { flower.key with ip_proto := key.nw_proto },
                    mask := { flower.mask with ip_proto := mask.nw_proto } }
    else flower
  { flower with
      key := { flower.key with
        ipv4_src := key.nw_src, ipv4_dst := key.nw_dst,
        ipv6_src := key.ipv6_src, ipv6_dst := key.ipv6_dst,
        dst_port := key.tp_dst, src_port := key.tp_src },
      mask := { flower.mask with
        ipv4_src := mask.nw_src, ipv4_dst := mask.nw_dst,
        ipv6_src := mask.ipv6_src, ipv6_dst := mask.ipv6_dst,
        dst_port := mask.tp_dst, src_port := mask.tp_src } }

/-- The match-to-flower translation of `netdev_tc_flow_put`, including the
VLAN acceptance check; fails with EOPNOTSUPP on a partial VLAN mask. -/
def tc_flower_of_match (m : Match) : Except Nat TcFlower :=
  let key := m.flow
  let mask := m.masks
  let flower := tc_flower_base m
  if mask.vlan_tci ≠ 0 then
    let vid_mask := mask.vlan_tci &&& VLAN_VID_MASK
    let pcp_mask := mask.vlan_tci &&& VLAN_PCP_MASK
    let cfi := mask.vlan_tci &&& VLAN_CFI
    if cfi ≠ 0 ∧ key.vlan_tci &&& VLAN_CFI ≠ 0
        ∧ (vid_mask = 0 ∨ vid_mask = VLAN_VID_MASK)
        ∧ (pcp_mask = 0 ∨ pcp_mask = VLAN_PCP_MASK)
        ∧ (vid_mask ≠ 0 ∨ pcp_mask ≠ 0) then
      let flower := if vid_mask ≠ 0 then
          { flower with key := { flower.key with vlan_id := vlan_tci_to_vid key.vlan_tci } }
        else flower
      let flower := if pcp_mask ≠ 0 then
          { flower with key := { flower.key with vlan_prio := vlan_tci_to_pcp key.vlan_tci } }
        else flower
      Except.ok (tc_flower_l3l4 key mask
        { flower with key := { flower.key with encap_eth_type := key.dl_type,
                                               eth_type := ETH_TYPE_VLAN } })
    else if mask.vlan_tci = 0xffff ∧ key.vlan_tci = 0 then
      Except.ok (tc_flower_l3l4 key mask flower)
    else
      Except.error EOPNOTSUPP
  else
    Except.ok (tc_flower_l3l4 key mask flower)

/-- `test_key_and_mask`: emits one diagnostic per match field the classifier
cannot express and drops the field; it never fails.  The returned list is the
sequence of rate-limited debug messages the source would log. -/
def test_key_and_mask (m : Match) : List String :=
  let wc := m.masks
  let f := m.flow
  (if wc.pkt_mark ≠ 0 then ["Ignoring pkt_mark"] else [])
  ++ (if wc.recirc_id ≠ 0 then ["Ignoring recirc_id"] else [])
  ++ (if wc.dp_hash ≠ 0 then ["Ignoring dp_hash"] else [])
  ++ (if wc.conj_id ≠ 0 then ["Ignoring conj_id"] else [])
  ++ (if wc.skb_priority ≠ 0 then ["Ignoring skb_priority"] else [])
  ++ (if wc.actset_output ≠ 0 then ["Ignoring actset_output"] else [])
  ++ (if wc.ct_state ≠ 0 then ["Ignoring ct_state"] else [])
  ++ (if wc.ct_zone ≠ 0 then ["Ignoring ct_zone"] else [])
  ++ (if wc.ct_mark ≠ 0 then ["Ignoring ct_zone"] else [])
  ++ (if wc.ct_label ≠ 0 then ["Ignoring ct_lable"] else [])
  ++ ((wc.regs.filter (fun r => r ≠ 0)).map (fun _ => "Ignoring regs"))
  ++ (if wc.metadata ≠ 0 then ["Ignoring metadata"] else [])
  ++ (if wc.nw_tos &&& IP_DSCP_MASK ≠ 0 then ["Ignoring nw_tos"] else [])
  ++ (if wc.nw_tos &&& IP_ECN_MASK ≠ 0 then ["Ignoring nw_ecn"] else [])
  ++ (if wc.nw_ttl ≠ 0 then ["Ignoring nw_ttl"] else [])
  ++ (if wc.mpls_lse0 &&& MPLS_LABEL_MASK ≠ 0 then ["Ignoring mpls_lse"] else [])
  ++ (if wc.mpls_lse0 &&& MPLS_TC_MASK ≠ 0 then ["Ignoring mpls_lse"] else [])
  ++ (if wc.mpls_lse0 &&& MPLS_TTL_MASK ≠ 0 then ["Ignoring mpls_lse"] else [])
  ++ (if wc.mpls_lse0 &&& MPLS_BOS_MASK ≠ 0 then ["Ignoring mpls_lse"] else [])
  ++ (if wc.mpls_lse1 ≠ 0 then ["Ignoring mpls_lse"] else [])
  ++ (if wc.mpls_lse2 ≠ 0 then ["Ignoring mpls_lse"] else [])
  ++ (if wc.nw_frag ≠ 0 then ["Ignoring nw_frag"] else [])
  ++ (if f.dl_type = ETH_P_IP ∧ f.nw_proto = IPPROTO_ICMP then
        (if wc.tp_src ≠ 0 then ["Ignoring icmp_type"] else [])
        ++ (if wc.tp_dst ≠ 0 then ["Ignoring icmp_code"] else [])
      else if f.dl_type = ETH_P_IP ∧ f.nw_proto = IPPROTO_IGMP then
        (if wc.tp_src ≠ 0 then ["Ignoring igmp_type"] else [])
        ++ (if wc.tp_dst ≠ 0 then ["Ignoring igmp_code"] else [])
      else if f.dl_type = ETH_P_IPV6 ∧ f.nw_proto = IPPROTO_ICMPV6 then
        (if wc.tp_src ≠ 0 then ["Ignoring icmp_type"] else [])
        ++ (if wc.tp_dst ≠ 0 then ["Ignoring icmp_code"] else [])
      else [])
  ++ (if (f.dl_type = ETH_P_IP ∨ f.dl_type = ETH_P_IPV6)
          ∧ f.nw_proto = IPPROTO_TCP ∧ wc.tcp_flags ≠ 0 then
        (if wc.tcp_flags &&& TCP_FLAGS_MASK ≠ 0 then ["Ignoring tcp_flags"] else [])
      else [])

/-- Apply one decoded OVS_TUNNEL_KEY attribute to the flower set sub-record,
as the switch in `parse_put_flow_set_action` does. -/
def apply_tun_attr (s : TcFlowerSet) : TunKeyAttr → TcFlowerSet
  | TunKeyAttr.id v => { s with id := v }
  | TunKeyAttr.ipv4_src v => { s with ipv4_src := v }
  | TunKeyAttr.ipv4_dst v => { s with ipv4_dst := v }
  | TunKeyAttr.ipv6_src v => { s with ipv6_src := v }
  | TunKeyAttr.ipv6_dst v => { s with ipv6_dst := v }
  | TunKeyAttr.tp_src v => { s with tp_src := v }
  | TunKeyAttr.tp_dst v => { s with tp_dst := v }

/-- `parse_put_flow_set_action`: accept only nested OVS_KEY_ATTR_TUNNEL
attributes; any other set attribute type fails with EOPNOTSUPP. -/
def parse_put_flow_set_action (flower : TcFlower) :
    List SetAttr → Except Nat TcFlower
  | [] => Except.ok flower
  | SetAttr.tunnel tun_attrs :: rest =>
      let s := tun_attrs.foldl apply_tun_attr { flower.set with set := true }
      parse_put_flow_set_action { flower with set := s } rest
  | SetAttr.other _ :: _ => Except.error EOPNOTSUPP

/-- The action loop of `netdev_tc_flow_put`: output, push-VLAN, pop-VLAN and
set are translated; any other action type fails with EOPNOTSUPP. -/
def parse_put_actions (env : OffloadEnv) (info : PutInfo) (flower : TcFlower) :
    List Action → Except Nat TcFlower
  | [] => Except.ok flower
  | Action.output port :: rest =>
      parse_put_actions env info
        { flower with ifindex_out := env.port_to_ifindex port,
                      set := { flower.set with tp_dst := info.tp_dst_port } } rest
  | Action.push_vlan tci :: rest =>
      parse_put_actions env info
        { flower with vlan_push_id := vlan_tci_to_vid tci,
                      vlan_push_prio := vlan_tci_to_pcp tci } rest
  | Action.pop_vlan :: rest =>
      parse_put_actions env info { flower with vlan_pop := 1 } rest
  | Action.set attrs :: rest =>
      match parse_put_flow_set_action flower attrs with
      | Except.error e => Except.error e
      | Except.ok flower2 => parse_put_actions env info flower2 rest
  | Action.other _ :: _ => Except.error EOPNOTSUPP

/-- Result of one `netdev_tc_flow_put` call: the returned error (0 = success),
the transport requests issued in order, and the cache and priority-allocator
states after the call. -/
structure PutOutcome where
  err : Nat
  requests : List TcRequest
  cache : CacheState
  prios : PrioState
deriving DecidableEq

/-- `netdev_tc_flow_put`.  The transport reply to `tc_replace_flower` is the
oracle `replaceRes`: an error code, or the kernel-assigned handle.  Modelled
from the spec: `tc_replace_flower` (tc.c, outside src/) stores the request's
priority and the kernel's handle into `flower.prio` and `flower.handle` on
success, which is what step 9's "insert the new (ufid, priority, returned
handle, interface, device)" uses. -/
def netdev_tc_flow_put (env : OffloadEnv) (info : PutInfo) (netdev : Netdev)
    (m : Match) (actions : List Action) (ufid : UFID)
    (replaceRes : Except Nat Nat)
    (cache : CacheState) (prios : PrioState) : PutOutcome :=
  let ifindex := netdev.ifindex
  if ifindex < 0 then
    { err := (-ifindex).toNat, requests := [], cache := cache, prios := prios }
  else
    match tc_flower_of_match m with
    | Except.error e => { err := e, requests := [], cache := cache, prios := prios }
    | Except.ok flower =>
      let _diag := test_key_and_mask m
      match parse_put_actions env info flower actions with
      | Except.error e => { err := e, requests := [], cache := cache, prios := prios }
      | Except.ok flower =>
        let hp := match get_ufid_tc_mapping cache ufid with
          | some d => (d.handle, d.prio)
          | none => (0, 0)
        let handle := hp.1
        let prio0 := hp.2
        let delReqs := if handle ≠ 0 ∧ prio0 ≠ 0 then
            [TcRequest.del_filter ifindex prio0 handle]
          else []
        let pr := if prio0 = 0 then get_prio_for_tc_flower prios flower
          else (prio0, prios)
        let prio := pr.1
        let prios' := pr.2
        let flower := { flower with act_cookie := some ufid }
        match replaceRes with
        | Except.error e =>
            { err := e,
              requests := delReqs ++ [TcRequest.replace_flower ifindex prio handle flower],
              cache := cache, prios := prios' }
        | Except.ok retHandle =>
            let flower2 := { flower with prio := prio, handle := retHandle }
            { err := 0,
              requests := delReqs ++ [TcRequest.replace_flower ifindex prio handle flower],
              cache := add_ufid_tc_mapping cache ufid flower2.prio flower2.handle netdev ifindex,
              prios := prios' }

/-- Output of the flower-to-match translation: the reconstructed match, the
rebuilt action list and the statistics. -/
structure ParsedMatch where
  flow : Flow
  masks : Flow
  actions : List Action
  stats : DpifFlowStats
deriving DecidableEq

/-- The tunnel attribute list `parse_tc_flower_to_match` nests under
OVS_ACTION_ATTR_SET: id always, addresses when non-zero, tp_dst always. -/
def flower_set_tun_attrs (s : TcFlowerSet) : List TunKeyAttr :=
  [TunKeyAttr.id s.id]
  ++ (if s.ipv4_src ≠ 0 then [TunKeyAttr.ipv4_src s.ipv4_src] else [])
  ++ (if s.ipv4_dst ≠ 0 then [TunKeyAttr.ipv4_dst s.ipv4_dst] else [])
  ++ (if s.ipv6_src ≠ 0 then [TunKeyAttr.ipv6_src s.ipv6_src] else [])
  ++ (if s.ipv6_dst ≠ 0 then [TunKeyAttr.ipv6_dst s.ipv6_dst] else [])
  ++ [TunKeyAttr.tp_dst s.tp_dst]

/-- The action list `parse_tc_flower_to_match` rebuilds, in source order:
pop-VLAN, push-VLAN, tunnel set, output. -/
def flower_out_actions (flower : TcFlower) (outport : Nat) : List Action :=
  (if flower.vlan_pop ≠ 0 then [Action.pop_vlan] else [])
  ++ (if flower.vlan_push_id ≠ 0 ∨ flower.vlan_push_prio ≠ 0 then
        [Action.push_vlan (flower.vlan_push_id
          ||| (flower.vlan_push_prio <<< VLAN_PCP_SHIFT) ||| VLAN_CFI)]
      else [])
  ++ (if flower.set.set then
        [Action.set [SetAttr.tunnel (flower_set_tun_attrs flower.set)]]
      else [])
  ++ (if 0 < flower.ifindex_out then [Action.output outport] else [])

/-- `parse_tc_flower_to_match`: translate a flower record back into a generic
match, action list and statistics.  Fails with ENOENT when the record's
output interface index cannot be resolved to a port.  The `match_set_*`
helpers (lib/match.c, outside src/) are modelled from the spec: each sets the
flow field to the masked value and records the mask (all-ones for the exact
setters). -/
def parse_tc_flower_to_match (env : OffloadEnv) (flower : TcFlower) :
    Except Nat ParsedMatch :=
  let key := flower.key
  let mask := flower.mask
  let outportRes : Except Nat Nat :=
    if flower.ifindex_out ≠ 0 then
      let op := env.port_get_byifidx flower.ifindex_out
      if op = 0 then Except.error ENOENT else Except.ok op
    else Except.ok 0
  match outportRes with
  | Except.error e => Except.error e
  | Except.ok outport =>
    let pm : ParsedMatch := { flow := {}, masks := {}, actions := [], stats := {} }
    let pm := { pm with flow := { pm.flow with dl_type := key.eth_type },
                        masks := { pm.masks with dl_type := 0xffff } }
    let pm := { pm with
        flow := { pm.flow with dl_src := key.src_mac &&& mask.src_mac,
                               dl_dst := key.dst_mac &&& mask.dst_mac },
        masks := { pm.masks with dl_src := mask.src_mac, dl_dst := mask.dst_mac } }
    let pm := if key.vlan_id ≠ 0 ∨ key.vlan_prio ≠ 0 then
        { pm with
            flow := { pm.flow with
              vlan_tci := (key.vlan_id &&& VLAN_VID_MASK)
                ||| ((key.vlan_prio &&& 0x7) <<< VLAN_PCP_SHIFT) ||| VLAN_CFI,
              dl_type := key.encap_eth_type },
            masks := { pm.masks with vlan_tci := 0xffff } }
      else pm
    let pm := if key.ip_proto ≠ 0 ∧ (key.eth_type = ETH_P_IP ∨ key.eth_type = ETH_P_IPV6) then
        { pm with flow := { pm.flow with nw_proto := key.ip_proto },
                  masks := { pm.masks with nw_proto := 0xff } }
      else pm
    let pm := { pm with
        flow := { pm.flow with
          nw_src := key.ipv4_src &&& mask.ipv4_src,
          nw_dst := key.ipv4_dst &&& mask.ipv4_dst,
          ipv6_src := key.ipv6_src &&& mask.ipv6_src,
          ipv6_dst := key.ipv6_dst &&& mask.ipv6_dst,
          tp_dst := key.dst_port &&& mask.dst_port,
          tp_src := key.src_port &&& mask.src_port },
        masks := { pm.masks with
          nw_src := mask.ipv4_src, nw_dst := mask.ipv4_dst,
          ipv6_src := mask.ipv6_src, ipv6_dst := mask.ipv6_dst,
          tp_dst := mask.dst_port, tp_src := mask.src_port } }
    let pm := if flower.tunnel.tunnel then
        let pm := { pm with
            flow := { pm.flow with tun_id := flower.tunnel.id },
            masks := { pm.masks with tun_id := 0xffffffffffffffff } }
        let pm := if flower.tunnel.ipv4_dst ≠ 0 then
            { pm with
                flow := { pm.flow with tun_ip_src := flower.tunnel.ipv4_src,
                                       tun_ip_dst := flower.tunnel.ipv4_dst },
                masks := { pm.masks with tun_ip_src := UINT32_MAX,
                                         tun_ip_dst := UINT32_MAX } }
          else if flower.tunnel.ipv6_dst ≠ 0 then
            { pm with
                flow := { pm.flow with tun_ipv6_src := flower.tunnel.ipv6_src,
                                       tun_ipv6_dst := flower.tunnel.ipv6_dst },
                masks := { pm.masks with tun_ipv6_src := 0xffffffffffffffffffffffffffffffff,
                                         tun_ipv6_dst := 0xffffffffffffffffffffffffffffffff } }
          else pm
        { pm with flow := { pm.flow with tp_dst := flower.tunnel.tp_dst },
                  masks := { pm.masks with tp_dst := 0xffff } }
      else pm
    Except.ok { pm with
        actions := flower_out_actions flower outport,
        stats := { n_packets := flower.n_packets, n_bytes := flower.n_bytes,
                   used := flower.lastused } }

/-- Result of one `netdev_tc_flow_get` call.  `result` is the translated
match written into the caller's buffers; `none` stands for the unspecified
partially-written output left behind when the discarded translation failed. -/
structure GetOutcome where
  err : Nat
  requests : List TcRequest
  result : Option ParsedMatch
deriving DecidableEq

/-- `netdev_tc_flow_get`.  The transport reply to `tc_get_flower` is the
oracle `getRes`.  The return value of `parse_tc_flower_to_match` is discarded,
exactly as in the source. -/
def netdev_tc_flow_get (env : OffloadEnv) (cache : CacheState) (ufid : UFID)
    (getRes : Except Nat TcFlower) : GetOutcome :=
  match get_ufid_tc_mapping cache ufid with
  | none => { err := ENOENT, requests := [], result := none }
  | some d =>
    if d.handle = 0 then { err := ENOENT, requests := [], result := none }
    else
      let ifindex := d.netdev.ifindex
      if ifindex < 0 then
        { err := (-ifindex).toNat, requests := [], result := none }
      else
        match getRes with
        | Except.error e =>
            { err := e, requests := [TcRequest.get_flower ifindex d.prio d.handle],
              result := none }
        | Except.ok flower =>
            let in_port := env.port_get_byifidx ifindex
            { err := 0,
              requests := [TcRequest.get_flower ifindex d.prio d.handle],
              result := match parse_tc_flower_to_match env flower with
                | Except.ok pm => some { pm with
                    flow := { pm.flow with in_port := in_port },
                    masks := { pm.masks with in_port := UINT32_MAX } }
                | Except.error _ => none }

/-- Result of one `netdev_tc_flow_del` call.  `stats` is the caller-supplied
statistics record after the call (`none` when the caller passed none). -/
structure DelOutcome where
  err : Nat
  requests : List TcRequest
  cache : CacheState
  stats : Option DpifFlowStats
deriving DecidableEq

/-- `netdev_tc_flow_del`.  The transport reply to `tc_del_filter` is the
oracle `delRes`; the cache entry is removed and the statistics zeroed whatever
that reply is. -/
def netdev_tc_flow_del (cache : CacheState) (ufid : UFID)
    (stats : Option DpifFlowStats) (delRes : Nat) : DelOutcome :=
  match get_ufid_tc_mapping cache ufid with
  | none => { err := ENOENT, requests := [], cache := cache, stats := stats }
  | some d =>
    if d.handle = 0 then
      { err := ENOENT, requests := [], cache := cache, stats := stats }
    else
      let ifindex := d.netdev.ifindex
      if ifindex < 0 then
        { err := (-ifindex).toNat, requests := [], cache := cache, stats := stats }
      else
        { err := delRes,
          requests := [TcRequest.del_filter ifindex d.prio d.handle],
          cache := del_ufid_tc_mapping cache ufid,
          stats := stats.map (fun _ => ({} : DpifFlowStats)) }

/-- Result of one `netdev_tc_flow_flush` call. -/
structure FlushOutcome where
  err : Nat
  requests : List TcRequest
  cache : CacheState
  prios : PrioState
deriving DecidableEq

/-- `netdev_tc_flow_flush`: one unconditional `tc_flush` of every filter on
the device; the cache and allocator are not consulted or modified.  The
transport reply to `tc_flush` is the oracle `flushRes`. -/
def netdev_tc_flow_flush (netdev : Netdev) (flushRes : Nat)
    (cache : CacheState) (prios : PrioState) : FlushOutcome :=
  let ifindex := netdev.ifindex
  if ifindex < 0 then
    { err := (-ifindex).toNat, requests := [], cache := cache, prios := prios }
  else
    { err := flushRes, requests := [TcRequest.flush ifindex],
      cache := cache, prios := prios }

/-- The per-dump cursor state `struct netdev_flow_dump`. -/
structure DumpState where
  netdev : Netdev
  port : Nat

/-- One record yielded by `netdev_tc_flow_dump_next`. -/
structure DumpYield where
  ufid : UFID
  result : ParsedMatch
deriving DecidableEq

/-- The ingress-port overwrite both Get and Dump perform after translation. -/
def fixup_in_port (pm : ParsedMatch) (port : Nat) : ParsedMatch :=
  { pm with flow := { pm.flow with in_port := port },
            masks := { pm.masks with in_port := UINT32_MAX } }

/-- `netdev_tc_flow_dump_next`: walk the remaining dump messages.  Each raw
message either failed `parse_netlink_to_tc_flower` (modelled `none`, the
decoder lives in tc.c outside src/) or decoded to a flower.  A record is
skipped when flower-to-match translation fails, or when it carries no cookie
and the reverse cache lookup finds no UFID; otherwise it is yielded together
with the rest of the cursor. -/
def netdev_tc_flow_dump_next (env : OffloadEnv) (cache : CacheState)
    (dump : DumpState) :
    List (Option TcFlower) → Option (DumpYield × List (Option TcFlower))
  | [] => none
  | none :: rest => netdev_tc_flow_dump_next env cache dump rest
  | some flower :: rest =>
      match parse_tc_flower_to_match env flower with
      | Except.error _ => netdev_tc_flow_dump_next env cache dump rest
      | Except.ok pm =>
          match flower.act_cookie with
          | some u => some (⟨u, fixup_in_port pm dump.port⟩, rest)
          | none =>
              match find_ufid cache flower.prio flower.handle dump.netdev with
              | some u => some (⟨u, fixup_in_port pm dump.port⟩, rest)
              | none => netdev_tc_flow_dump_next env cache dump rest

/-- The `enum ovs_vport_type` values `dpif-netlink-rtnl.c` dispatches on. -/
inductive OvsVportType
  | vxlan
  | gre
  | geneve
  | netdev
  | internal
  | lisp
  | stt
  | unspec
deriving DecidableEq

/-- The vport kinds the provisioner can create (the three tunnel kinds). -/
def vport_type_supported : OvsVportType → Bool
  | OvsVportType.vxlan => true
  | OvsVportType.gre => true
  | OvsVportType.geneve => true
  | _ => false

/-- Transport oracle for the vport provisioner: the outcome of the i-th
create attempt (`dpif_netlink_rtnl_create`), of the i-th attribute
verification (`dpif_netlink_rtnl_verify`, whose result is determined by the
transport's RTM_GETLINK reply and its decoding), and of the i-th destroy. -/
structure RtnlEnv where
  createRes : Nat → Nat
  verifyRes : Nat → Nat
  destroyRes : Nat → Nat

/-- Result of one `dpif_netlink_rtnl_port_create` call: the returned error
and how many create and destroy requests were issued. -/
structure RtnlOutcome where
  err : Nat
  creates : Nat
  destroys : Nat
deriving DecidableEq

/-- The second pass of `dpif_netlink_rtnl_port_create`'s `try_again` loop
(`retried == true`): create, verify when creation succeeded, and never
destroy-and-retry again. -/
def rtnl_port_create_retry (env : RtnlEnv) : RtnlOutcome :=
  let err := env.createRes 1
  if err = 0 then
    { err := env.verifyRes 1, creates := 1, destroys := 0 }
  else
    { err := err, creates := 1, destroys := 0 }

/-- `dpif_netlink_rtnl_port_create`: create with NLM_F_CREATE|NLM_F_EXCL,
verify on success or on EEXIST, and on a failed verification of a pre-existing
device destroy it and retry exactly once.  The bounded goto loop is unrolled
into the first pass plus `rtnl_port_create_retry`. -/
def dpif_netlink_rtnl_port_create (env : RtnlEnv) (type : OvsVportType)
    (has_tnl_cfg : Bool) : RtnlOutcome :=
  if has_tnl_cfg = false then { err := EINVAL, creates := 0, destroys := 0 }
  else if vport_type_supported type = false then
    { err := EOPNOTSUPP, creates := 0, destroys := 0 }
  else
    let err := env.createRes 0
    if err = 0 ∨ err = EEXIST then
      let err2 := env.verifyRes 0
      if err2 ≠ 0 ∧ err = EEXIST then
        let err3 := env.destroyRes 0
        if err3 = 0 then
          let r := rtnl_port_create_retry env
          { err := r.err, creates := 1 + r.creates, destroys := 1 + r.destroys }
        else { err := err3, creates := 1, destroys := 1 }
      else { err := err2, creates := 1, destroys := 0 }
    else { err := err, creates := 1, destroys := 0 }

/-- Modelled from the spec: the VLAN acceptance shape in the claim's own
words — the mask's CFI bit and the key's CFI bit are both set, each of the
VID mask and the PCP mask is either fully wildcarded or fully exact, and at
least one of VID/PCP is exact-matched.  Compared against the source condition
in `tc_flower_of_match`. -/
def spec_vlan_acceptable (key_tci mask_tci : Nat) : Prop :=
  mask_tci &&& VLAN_CFI ≠ 0 ∧ key_tci &&& VLAN_CFI ≠ 0
  ∧ (mask_tci &&& VLAN_VID_MASK = 0 ∨ mask_tci &&& VLAN_VID_MASK = VLAN_VID_MASK)
  ∧ (mask_tci &&& VLAN_PCP_MASK = 0 ∨ mask_tci &&& VLAN_PCP_MASK = VLAN_PCP_MASK)
  ∧ (mask_tci &&& VLAN_VID_MASK = VLAN_VID_MASK
     ∨ mask_tci &&& VLAN_PCP_MASK = VLAN_PCP_MASK)

/-- Zero out every wildcard-mask field `test_key_and_mask` lists as
unsupported by the classifier (the supported fields are untouched). -/
def scrub_unsupported (m : Match) : Match :=
  { m with masks := { m.masks with
      pkt_mark := 0, recirc_id := 0, dp_hash := 0, conj_id := 0,
      skb_priority := 0, actset_output := 0, ct_state := 0, ct_zone := 0,
      ct_mark := 0, ct_label := 0, regs := [], metadata := 0, nw_tos := 0,
      nw_ttl := 0, mpls_lse0 := 0, mpls_lse1 := 0, mpls_lse2 := 0,
      nw_frag := 0, tcp_flags := 0 } }

/-- The action shapes `netdev_tc_flow_put` can translate: output, push-VLAN,
pop-VLAN, and set restricted to a tunnel key. -/
def put_action_supported : Action → Bool
  | Action.output _ => true
  | Action.push_vlan _ => true
  | Action.pop_vlan => true
  | Action.set attrs => attrs.all (fun a => match a with
      | SetAttr.tunnel _ => true
      | SetAttr.other _ => false)
  | Action.other _ => false

/-- Well-formed cache: at most one entry per ufid in the forward index, and
every entry's kernel handle is non-zero (entries are only created from
successful `tc_replace_flower` replies, whose handles address real filters;
the source treats handle 0 as "absent"). -/
def cacheWf (st : CacheState) : Prop :=
  (st.ufid_to_tc.map (fun d => d.ufid)).Nodup
  ∧ ∀ d ∈ st.ufid_to_tc, d.handle ≠ 0

/-- Well-formed priority allocator state, as produced by any sequence of
`get_prio_for_tc_flower` calls from the initial empty state: the counter
equals the number of allocations, signatures are pairwise distinct, and the
i-th allocated entry carries priority `(i + 1) % 2 ^ 16` (the `uint16_t`
truncation of the counter value that allocated it). -/
def prioWf (st : PrioState) : Prop :=
  st.last_prio = st.prios.length
  ∧ (st.prios.map (fun d => (d.mask, d.protocol))).Nodup
  ∧ st.prios.map (fun d => d.prio)
      = (List.range st.prios.length).map (fun i => (i + 1) % UINT16_LIMIT)

/-- Concrete device with a valid interface index, for witnesses. -/
def nd0 : Netdev := ⟨1, 4⟩

/-- Concrete environment: every output port resolves to interface index 5;
no interface index resolves back to a port. -/
def env0 : OffloadEnv := ⟨fun _ => 5, fun _ => 0⟩

/-- Concrete offload info. -/
def info0 : PutInfo := ⟨4789⟩

/-- The initial (empty) priority-allocator state. -/
def prios_empty : PrioState := ⟨[], 0⟩

/-- The initial (empty) cache. -/
def cache_empty : CacheState := ⟨[], []⟩

/-- A concrete cache entry for ufid 7 at (prio 3, handle 11, ifindex 4). -/
def entry0 : UfidTcData := ⟨7, 3, 11, 4, nd0⟩

/-- A concrete cache holding `entry0` in both indexes. -/
def cache1 : CacheState := ⟨[entry0], [entry0]⟩

/-- The all-wildcard match. -/
def m0 : Match := {}

/-- The flower record `tc_flower_of_match` produces for `m0`: everything
zero except the forced all-ones destination MAC mask. -/
def flower0 : TcFlower := { mask := { dst_mac := MAC_ALL_ONES } }

/-- A concrete dump cursor on `nd0` reporting logical port 3. -/
def dump0 : DumpState := ⟨nd0, 3⟩

/-- A flower record whose output ifindex cannot be resolved by `env0`. -/
def flowerX : TcFlower := { ifindex_out := 9 }

/-- A flower record carrying cookie 42 and no output. -/
def flowerC : TcFlower := { act_cookie := some 42 }

/-- What `parse_tc_flower_to_match env0 flowerC` yields. -/
def pmC : ParsedMatch :=
  { flow := {}, masks := { dl_type := 0xffff }, actions := [], stats := {} }

/-- The flower `netdev_tc_flow_put` hands to `tc_replace_flower` when putting
`m0` with no actions under ufid 7. -/
def flwC : TcFlower := { mask := { dst_mac := MAC_ALL_ONES }, act_cookie := some 7 }

/-- A match whose wildcard mask sets an unsupported field (ct_state). -/
def mU : Match := { masks := { ct_state := 1 } }

/-- A match with an accepted VLAN shape: exact VID, wildcarded PCP, CFI set
in mask and key. -/
def mV : Match := { flow := { vlan_tci := 0x1123 }, masks := { vlan_tci := 0x1fff } }

/-- A match with a partial VLAN VID mask (neither all-zero nor all-one). -/
def mW : Match := { flow := { vlan_tci := 0x1001 }, masks := { vlan_tci := 0x1001 } }

/-- Transport oracle for the vport witness: first create reports EEXIST,
first verify fails, destroy succeeds, and the retried create and verify
succeed. -/
def env7 : RtnlEnv :=
  ⟨fun i => if i = 0 then EEXIST else 0,
   fun i => if i = 0 then EINVAL else 0,
   fun _ => 0⟩

/-- The L3/L4 stage forces the destination MAC mask to all-ones and copies
the source MAC mask, whatever flower it starts from. -/
theorem tc_flower_l3l4_macs (key mask : Flow) (fl : TcFlower) :
    (tc_flower_l3l4 key mask fl).mask.dst_mac = MAC_ALL_ONES ∧
    (tc_flower_l3l4 key mask fl).key.dst_mac = key.dl_dst ∧
    (tc_flower_l3l4 key mask fl).mask.src_mac = mask.dl_src ∧
    (tc_flower_l3l4 key mask fl).key.src_mac = key.dl_src := by
  simp only [tc_flower_l3l4]
  split <;> simp

/-- Every accepted translation result is the L3/L4 stage applied to some
intermediate flower. -/
theorem tc_flower_of_match_shape (m : Match) (f : TcFlower)
    (h : tc_flower_of_match m = Except.ok f) :
    ∃ fl, f = tc_flower_l3l4 m.flow m.masks fl := by
  simp only [tc_flower_of_match] at h
  repeat' split at h
  all_goals first
    | exact Except.noConfusion h
    | (injection h with h2; exact ⟨_, h2.symm⟩)

/-- C9: for every match accepted by flow_put's translation, the flower's
destination-MAC mask is forced to all-ones (an exact match on the key's
destination MAC) regardless of the caller's mask, while the source-MAC mask
is copied from the caller's mask unchanged. -/
theorem flower_dst_mac_mask_forced (m : Match) (f : TcFlower)
    (h : tc_flower_of_match m = Except.ok f) :
    f.mask.dst_mac = MAC_ALL_ONES ∧ f.key.dst_mac = m.flow.dl_dst ∧
    f.mask.src_mac = m.masks.dl_src ∧ f.key.src_mac = m.flow.dl_src := by
  obtain ⟨fl, rfl⟩ := tc_flower_of_match_shape m f h
  exact tc_flower_l3l4_macs _ _ _

/-- Witness for C9 at the all-wildcard match. -/
theorem flower_dst_mac_mask_forced_witness :
    flower0.mask.dst_mac = MAC_ALL_ONES ∧ flower0.key.dst_mac = m0.flow.dl_dst ∧
    flower0.mask.src_mac = m0.masks.dl_src ∧ flower0.key.src_mac = m0.flow.dl_src :=
  flower_dst_mac_mask_forced m0 flower0 (by rfl)

/-- C8: flow_flush leaves both cache indexes (and the allocator) completely
unchanged for every prior cache state, and, when the device's interface index
resolves, issues exactly one unconditional flush request and returns the
transport's reply. -/
theorem flow_flush_single_request_cache_unchanged (netdev : Netdev)
    (flushRes : Nat) (cache : CacheState) (prios : PrioState) :
    (netdev_tc_flow_flush netdev flushRes cache prios).cache = cache ∧
    (netdev_tc_flow_flush netdev flushRes cache prios).prios = prios ∧
    (¬ netdev.ifindex < 0 →
      (netdev_tc_flow_flush netdev flushRes cache prios).requests
        = [TcRequest.flush netdev.ifindex] ∧
      (netdev_tc_flow_flush netdev flushRes cache prios).err = flushRes) := by
  unfold netdev_tc_flow_flush
  by_cases h : netdev.ifindex < 0 <;> simp [h]

/-- Witness for C8 on a concrete device and non-empty cache. -/
theorem flow_flush_single_request_cache_unchanged_witness :
    (netdev_tc_flow_flush nd0 0 cache1 prios_empty).cache = cache1 ∧
    (netdev_tc_flow_flush nd0 0 cache1 prios_empty).requests
      = [TcRequest.flush 4] := by
  have h := flow_flush_single_request_cache_unchanged nd0 0 cache1 prios_empty
  refine ⟨h.1, ?_⟩
  rw [(h.2.2 (by decide)).1]
  decide

/-- C7: for a supported vport kind, when the exclusive create reports
already-exists, a failed verification leads to destroy plus exactly one
retried creation (never more than two creations in any run); a successful
verification accepts the pre-existing device and the call succeeds; any
creation error other than already-exists fails the call, as does a second
failure (create or verify) after the one retry. -/
theorem rtnl_port_create_retry_policy (env : RtnlEnv) (type : OvsVportType)
    (hsup : vport_type_supported type = true) :
    ((dpif_netlink_rtnl_port_create env type true).creates ≤ 2) ∧
    (env.createRes 0 = EEXIST → env.verifyRes 0 = 0 →
       dpif_netlink_rtnl_port_create env type true
         = { err := 0, creates := 1, destroys := 0 }) ∧
    (env.createRes 0 = EEXIST → env.verifyRes 0 ≠ 0 → env.destroyRes 0 = 0 →
       (dpif_netlink_rtnl_port_create env type true).creates = 2 ∧
       (dpif_netlink_rtnl_port_create env type true).destroys = 1 ∧
       (env.createRes 1 ≠ 0 →
          (dpif_netlink_rtnl_port_create env type true).err = env.createRes 1) ∧
       (env.createRes 1 = 0 →
          (dpif_netlink_rtnl_port_create env type true).err = env.verifyRes 1)) ∧
    (env.createRes 0 ≠ 0 → env.createRes 0 ≠ EEXIST →
       dpif_netlink_rtnl_port_create env type true
         = { err := env.createRes 0, creates := 1, destroys := 0 }) := by
  refine ⟨?_, ?_, ?_, ?_⟩
  · unfold dpif_netlink_rtnl_port_create rtnl_port_create_retry
    simp [hsup]
    repeat' split
    all_goals simp
  · intro h1 h2
    unfold dpif_netlink_rtnl_port_create
    simp [hsup, h1, h2, EEXIST]
  · intro h1 h2 h3
    unfold dpif_netlink_rtnl_port_create rtnl_port_create_retry
    simp only [hsup, h1, h3]
    simp [h2, EEXIST]
    by_cases hc : env.createRes 1 = 0 <;> simp [hc]
  · intro h1 h2
    have hne : ¬ (env.createRes 0 = 0 ∨ env.createRes 0 = EEXIST) := by
      rintro (h | h)
      · exact h1 h
      · exact h2 h
    unfold dpif_netlink_rtnl_port_create
    simp [hsup, hne]

/-- Witness for C7: create-conflict scenario with one successful retry. -/
theorem rtnl_port_create_retry_policy_witness :
    (dpif_netlink_rtnl_port_create env7 OvsVportType.vxlan true).creates = 2 ∧
    (dpif_netlink_rtnl_port_create env7 OvsVportType.vxlan true).destroys = 1 ∧
    (dpif_netlink_rtnl_port_create env7 OvsVportType.vxlan true).err = 0 := by
  have h := rtnl_port_create_retry_policy env7 OvsVportType.vxlan (by decide)
  have h3 := h.2.2.1 (by decide) (by decide) (by decide)
  refine ⟨h3.1, h3.2.1, ?_⟩
  rw [h3.2.2.2 (by decide)]
  decide

/-- C10: flow_get discards the return value of the flower-to-match
translation: when the cache lookup and the transport query succeed but the
translation fails, flow_get still returns 0 (with the output left
unspecified), unlike dump_next, which skips such a record; in particular the
translation fails with ENOENT when the record's output interface index
cannot be resolved to a port. -/
theorem flow_get_discards_parse_error (env : OffloadEnv) (cache : CacheState)
    (u : UFID) (d : UfidTcData) (flower : TcFlower) (e : Nat)
    (dump : DumpState) (rest : List (Option TcFlower))
    (hd : get_ufid_tc_mapping cache u = some d)
    (hh : d.handle ≠ 0)
    (hif : ¬ d.netdev.ifindex < 0)
    (hp : parse_tc_flower_to_match env flower = Except.error e) :
    (netdev_tc_flow_get env cache u (Except.ok flower)).err = 0 ∧
    (netdev_tc_flow_get env cache u (Except.ok flower)).result = none ∧
    netdev_tc_flow_dump_next env cache dump (some flower :: rest)
      = netdev_tc_flow_dump_next env cache dump rest ∧
    (flower.ifindex_out ≠ 0 → env.port_get_byifidx flower.ifindex_out = 0 →
       parse_tc_flower_to_match env flower = Except.error ENOENT) := by
  refine ⟨?_, ?_, ?_, ?_⟩
  · unfold netdev_tc_flow_get
    rw [hd]
    simp [hh, hif]
  · unfold netdev_tc_flow_get
    rw [hd]
    simp [hh, hif, hp]
  · conv_lhs => rw [netdev_tc_flow_dump_next]
    rw [hp]
  · intro h1 h2
    unfold parse_tc_flower_to_match
    simp [h1, h2]

/-- Witness for C10: a flower whose output ifindex resolves to no port. -/
theorem flow_get_discards_parse_error_witness :
    (netdev_tc_flow_get env0 cache1 7 (Except.ok flowerX)).err = 0 ∧
    (netdev_tc_flow_get env0 cache1 7 (Except.ok flowerX)).result = none ∧
    netdev_tc_flow_dump_next env0 cache1 dump0 [some flowerX]
      = netdev_tc_flow_dump_next env0 cache1 dump0 [] := by
  have h := flow_get_discards_parse_error env0 cache1 7 entry0 flowerX ENOENT
    dump0 [] (by rfl) (by decide) (by decide) (by rfl)
  exact ⟨h.1, h.2.1, h.2.2.1⟩

/-- C1 counterexample: a put whose replace fails while a previous entry for
the same ufid exists returns the transport error but leaves the stale cache
entry in place — the cache is not "without an entry for that ufid". -/
theorem flow_put_failed_replace_keeps_stale_entry :
    (netdev_tc_flow_put env0 info0 nd0 m0 [] 7 (Except.error 22)
        cache1 prios_empty).err = 22 ∧
    get_ufid_tc_mapping (netdev_tc_flow_put env0 info0 nd0 m0 [] 7
        (Except.error 22) cache1 prios_empty).cache 7 = some entry0 := by
  constructor <;> rfl

/-- C1 (amended): when the create-or-replace transport request fails, the
error is returned verbatim and the cache is left exactly as it was before
the call: still without an entry for the ufid if it had none, but retaining
the stale previous entry when one existed (whose kernel filter was already
deleted in the replace step). -/
theorem flow_put_replace_error_verbatim_cache_unchanged
    (env : OffloadEnv) (info : PutInfo) (nd : Netdev) (m : Match)
    (acts : List Action) (u : UFID) (e : Nat) (cache : CacheState)
    (prios : PrioState) (f g : TcFlower)
    (hif : ¬ nd.ifindex < 0)
    (hf : tc_flower_of_match m = Except.ok f)
    (hg : parse_put_actions env info f acts = Except.ok g) :
    (netdev_tc_flow_put env info nd m acts u (Except.error e) cache prios).err
      = e ∧
    (netdev_tc_flow_put env info nd m acts u (Except.error e) cache prios).cache
      = cache := by
  unfold netdev_tc_flow_put
  simp [hif, hf, hg]

/-- Witness for the amended C1 on an empty cache. -/
theorem flow_put_replace_error_verbatim_cache_unchanged_witness :
    (netdev_tc_flow_put env0 info0 nd0 m0 [] 9 (Except.error 22)
        cache_empty prios_empty).err = 22 ∧
    (netdev_tc_flow_put env0 info0 nd0 m0 [] 9 (Except.error 22)
        cache_empty prios_empty).cache = cache_empty :=
  flow_put_replace_error_verbatim_cache_unchanged env0 info0 nd0 m0 [] 9 22
    cache_empty prios_empty flower0 flower0 (by decide) (by rfl) (by rfl)

/-- After erasing the first entry matching a ufid from a duplicate-free
forward index, no entry for that ufid remains. -/
theorem find?_eraseP_ufid (l : List UfidTcData) (u : UFID)
    (h : (l.map (fun d => d.ufid)).Nodup) :
    (l.eraseP (ufid_matches u)).find? (ufid_matches u) = none := by
  induction l with
  | nil => rfl
  | cons x xs ih =>
    rw [List.map_cons, List.nodup_cons] at h
    by_cases hx : ufid_matches u x = true
    · rw [List.eraseP_cons_of_pos hx, List.find?_eq_none]
      intro y hy hpy
      have h1 : y.ufid = u := by simpa [ufid_matches] using hpy
      have h2 : x.ufid = u := by simpa [ufid_matches] using hx
      have hxy : y.ufid = x.ufid := by rw [h1, h2]
      exact h.1 (hxy ▸ List.mem_map_of_mem (fun d => d.ufid) hy)
    · rw [List.eraseP_cons_of_neg hx, List.find?_cons_of_neg _ hx]
      exact ih h.2

/-- Removing a ufid from a well-formed cache leaves no entry for it. -/
theorem get_after_del (st : CacheState) (u : UFID)
    (h : (st.ufid_to_tc.map (fun d => d.ufid)).Nodup) :
    get_ufid_tc_mapping (del_ufid_tc_mapping st u) u = none := by
  unfold del_ufid_tc_mapping get_ufid_tc_mapping
  cases hf : st.ufid_to_tc.find? (ufid_matches u) with
  | none => exact hf
  | some d => exact find?_eraseP_ufid st.ufid_to_tc u h

/-- C2: for a ufid present in a well-formed cache (on a device whose ifindex
resolves), flow_del issues the kernel delete and removes the cache entry
whatever the transport outcome, zeroes the caller-supplied statistics, and
returns the transport error; a flow_get issued afterwards returns ENOENT even
when the kernel delete failed.  For a ufid absent from the cache, flow_del
returns ENOENT without issuing any transport request. -/
theorem flow_del_unconditional_removal (cache : CacheState) (u : UFID) :
    (∀ d, cacheWf cache → get_ufid_tc_mapping cache u = some d →
       ¬ d.netdev.ifindex < 0 →
       ∀ delRes stats env getRes,
         (netdev_tc_flow_del cache u stats delRes).err = delRes ∧
         (netdev_tc_flow_del cache u stats delRes).requests
           = [TcRequest.del_filter d.netdev.ifindex d.prio d.handle] ∧
         get_ufid_tc_mapping (netdev_tc_flow_del cache u stats delRes).cache u
           = none ∧
         (netdev_tc_flow_del cache u stats delRes).stats
           = stats.map (fun _ => ({} : DpifFlowStats)) ∧
         (netdev_tc_flow_get env
             (netdev_tc_flow_del cache u stats delRes).cache u getRes).err
           = ENOENT) ∧
    (get_ufid_tc_mapping cache u = none →
       ∀ delRes stats,
         netdev_tc_flow_del cache u stats delRes
           = { err := ENOENT, requests := [], cache := cache, stats := stats }) := by
  constructor
  · intro d hwf hd hif delRes stats env getRes
    have hmem : d ∈ cache.ufid_to_tc := List.mem_of_find?_eq_some hd
    have hh : d.handle ≠ 0 := hwf.2 d hmem
    have hout : netdev_tc_flow_del cache u stats delRes
        = { err := delRes,
            requests := [TcRequest.del_filter d.netdev.ifindex d.prio d.handle],
            cache := del_ufid_tc_mapping cache u,
            stats := stats.map (fun _ => ({} : DpifFlowStats)) } := by
      unfold netdev_tc_flow_del
      rw [hd]
      simp [hh, hif]
    have hget : get_ufid_tc_mapping (del_ufid_tc_mapping cache u) u = none :=
      get_after_del cache u hwf.1
    refine ⟨by rw [hout], by rw [hout], ?_, by rw [hout], ?_⟩
    · rw [hout]
      exact hget
    · rw [hout]
      unfold netdev_tc_flow_get
      rw [hget]
  · intro h delRes stats
    unfold netdev_tc_flow_del
    rw [h]

/-- Witness for C2: a failed kernel delete (error 13) still removes the
entry, and the follow-up get reports ENOENT. -/
theorem flow_del_unconditional_removal_witness :
    (netdev_tc_flow_del cache1 7 (some ⟨5, 6, 8⟩) 13).err = 13 ∧
    get_ufid_tc_mapping (netdev_tc_flow_del cache1 7 (some ⟨5, 6, 8⟩) 13).cache 7
      = none ∧
    (netdev_tc_flow_del cache1 7 (some ⟨5, 6, 8⟩) 13).stats
      = some ({} : DpifFlowStats) ∧
    (netdev_tc_flow_get env0
        (netdev_tc_flow_del cache1 7 (some ⟨5, 6, 8⟩) 13).cache 7
        (Except.error 1)).err = ENOENT ∧
    netdev_tc_flow_del cache_empty 9 none 13
      = { err := ENOENT, requests := [], cache := cache_empty, stats := none } := by
  have h := (flow_del_unconditional_removal cache1 7).1 entry0
    ⟨by decide, by decide⟩ (by rfl) (by decide) 13 (some ⟨5, 6, 8⟩) env0
    (Except.error 1)
  have h2 := (flow_del_unconditional_removal cache_empty 9).2 (by rfl) 13 none
  exact ⟨h.1, h.2.2.1, (h.2.2.2.1).trans rfl, h.2.2.2.2, h2⟩

/-- The set-action parser fails only with EOPNOTSUPP. -/
theorem parse_put_flow_set_action_error_eq (fl : TcFlower)
    (attrs : List SetAttr) (e : Nat)
    (h : parse_put_flow_set_action fl attrs = Except.error e) :
    e = EOPNOTSUPP := by
  induction attrs generalizing fl with
  | nil => simp [parse_put_flow_set_action] at h
  | cons x rest ih =>
    cases x with
    | tunnel ta =>
        simp only [parse_put_flow_set_action] at h
        exact ih _ h
    | other t =>
        simp only [parse_put_flow_set_action, Except.error.injEq] at h
        exact h.symm

/-- A set action containing a non-tunnel attribute is rejected. -/
theorem parse_put_flow_set_action_bad (fl : TcFlower) (attrs : List SetAttr)
    (t : Nat) (hmem : SetAttr.other t ∈ attrs) :
    parse_put_flow_set_action fl attrs = Except.error EOPNOTSUPP := by
  induction attrs generalizing fl with
  | nil => cases hmem
  | cons x rest ih =>
    cases x with
    | tunnel ta =>
        have hm : SetAttr.other t ∈ rest := by
          rcases List.mem_cons.mp hmem with h | h
          · exact absurd h (by simp)
          · exact h
        simp only [parse_put_flow_set_action]
        exact ih _ hm
    | other t2 => simp [parse_put_flow_set_action]

/-- An action list containing an unsupported action makes the action loop
fail with EOPNOTSUPP. -/
theorem parse_put_actions_bad (env : OffloadEnv) (info : PutInfo)
    (fl : TcFlower) (acts : List Action) (a : Action)
    (ha : a ∈ acts) (hbad : put_action_supported a = false) :
    parse_put_actions env info fl acts = Except.error EOPNOTSUPP := by
  induction acts generalizing fl with
  | nil => cases ha
  | cons b rest ih =>
    rcases List.mem_cons.mp ha with hb | hb
    · subst hb
      cases a with
      | output p => simp [put_action_supported] at hbad
      | push_vlan v => simp [put_action_supported] at hbad
      | pop_vlan => simp [put_action_supported] at hbad
      | set attrs =>
          have hex : ∃ x, x ∈ attrs ∧
              ¬ (match x with
                 | SetAttr.tunnel _ => true
                 | SetAttr.other _ => false) = true := by
            simpa [put_action_supported, List.all_eq_false] using hbad
          obtain ⟨x, hx, hpx⟩ := hex
          obtain ⟨t, rfl⟩ : ∃ t, x = SetAttr.other t := by
            cases x with
            | tunnel ta => simp at hpx
            | other t => exact ⟨t, rfl⟩
          simp only [parse_put_actions]
          rw [parse_put_flow_set_action_bad fl attrs t hx]
      | other t => simp [parse_put_actions]
    · cases b with
      | output p =>
          simp only [parse_put_actions]
          exact ih _ hb
      | push_vlan v =>
          simp only [parse_put_actions]
          exact ih _ hb
      | pop_vlan =>
          simp only [parse_put_actions]
          exact ih _ hb
      | set attrs =>
          simp only [parse_put_actions]
          cases hps : parse_put_flow_set_action fl attrs with
          | error e =>
              rw [parse_put_flow_set_action_error_eq fl attrs e hps]
          | ok fl2 =>
              exact ih _ hb
      | other t => simp [parse_put_actions]

/-- The match-to-flower translation fails only with EOPNOTSUPP. -/
theorem tc_flower_of_match_error (m : Match) (e : Nat)
    (h : tc_flower_of_match m = Except.error e) : e = EOPNOTSUPP := by
  simp only [tc_flower_of_match] at h
  repeat' split at h
  all_goals first
    | (injection h with h2; exact h2.symm)
    | exact Except.noConfusion h

/-- C5: flow_put's outcome does not depend on any match field the classifier
cannot express (they are dropped during translation, with only the
diagnostics of `test_key_and_mask`), whereas an action list containing any
action other than output, push-VLAN, pop-VLAN or set-with-tunnel-key makes
flow_put fail with EOPNOTSUPP before issuing any transport request. -/
theorem unsupported_fields_dropped_actions_rejected
    (env : OffloadEnv) (info : PutInfo) (nd : Netdev) (m : Match) (u : UFID)
    (rr : Except Nat Nat) (cache : CacheState) (prios : PrioState) :
    (∀ acts, netdev_tc_flow_put env info nd m acts u rr cache prios
       = netdev_tc_flow_put env info nd (scrub_unsupported m) acts u rr
           cache prios) ∧
    (∀ acts a, ¬ nd.ifindex < 0 → a ∈ acts → put_action_supported a = false →
       (netdev_tc_flow_put env info nd m acts u rr cache prios).err
         = EOPNOTSUPP ∧
       (netdev_tc_flow_put env info nd m acts u rr cache prios).requests
         = []) := by
  constructor
  · intro acts
    rfl
  · intro acts a hif ha hbad
    cases hf : tc_flower_of_match m with
    | error e =>
        have he := tc_flower_of_match_error m e hf
        subst he
        constructor <;> simp [netdev_tc_flow_put, hif, hf]
    | ok fl =>
        have hb := parse_put_actions_bad env info fl acts a ha hbad
        constructor <;> simp [netdev_tc_flow_put, hif, hf, hb]

/-- Witness for C5: a ct_state mask changes nothing; an unrecognized action
is rejected with EOPNOTSUPP and no transport request. -/
theorem unsupported_fields_dropped_actions_rejected_witness :
    netdev_tc_flow_put env0 info0 nd0 mU [] 7 (Except.ok 5) cache_empty
        prios_empty
      = netdev_tc_flow_put env0 info0 nd0 (scrub_unsupported mU) [] 7
          (Except.ok 5) cache_empty prios_empty ∧
    (netdev_tc_flow_put env0 info0 nd0 mU [Action.other 42] 7 (Except.ok 5)
        cache_empty prios_empty).err = EOPNOTSUPP ∧
    (netdev_tc_flow_put env0 info0 nd0 mU [Action.other 42] 7 (Except.ok 5)
        cache_empty prios_empty).requests = [] := by
  have h := unsupported_fields_dropped_actions_rejected env0 info0 nd0 mU 7
    (Except.ok 5) cache_empty prios_empty
  have h2 := h.2 [Action.other 42] (Action.other 42) (by decide) (by decide)
    (by decide)
  exact ⟨h.1 [], h2.1, h2.2⟩

/-- The spec's VLAN acceptance wording is equivalent to the source condition
of the VLAN block in `netdev_tc_flow_put`. -/
theorem spec_vlan_acceptable_iff (k mk : Nat) :
    spec_vlan_acceptable k mk ↔
      (mk &&& VLAN_CFI ≠ 0 ∧ k &&& VLAN_CFI ≠ 0
       ∧ (mk &&& VLAN_VID_MASK = 0 ∨ mk &&& VLAN_VID_MASK = VLAN_VID_MASK)
       ∧ (mk &&& VLAN_PCP_MASK = 0 ∨ mk &&& VLAN_PCP_MASK = VLAN_PCP_MASK)
       ∧ (mk &&& VLAN_VID_MASK ≠ 0 ∨ mk &&& VLAN_PCP_MASK ≠ 0)) := by
  unfold spec_vlan_acceptable
  constructor
  · rintro ⟨h1, h2, h3, h4, h5⟩
    refine ⟨h1, h2, h3, h4, ?_⟩
    rcases h5 with h5 | h5
    · left
      rw [h5]
      decide
    · right
      rw [h5]
      decide
  · rintro ⟨h1, h2, h3, h4, h5⟩
    refine ⟨h1, h2, h3, h4, ?_⟩
    rcases h5 with h5 | h5
    · left
      rcases h3 with h3 | h3
      · exact absurd h3 h5
      · exact h3
    · right
      rcases h4 with h4 | h4
      · exact absurd h4 h5
      · exact h4

/-- The L3/L4 stage leaves the EtherType and VLAN key fields untouched. -/
theorem tc_flower_l3l4_preserves (key mask : Flow) (fl : TcFlower) :
    (tc_flower_l3l4 key mask fl).key.eth_type = fl.key.eth_type ∧
    (tc_flower_l3l4 key mask fl).key.encap_eth_type = fl.key.encap_eth_type ∧
    (tc_flower_l3l4 key mask fl).key.vlan_id = fl.key.vlan_id ∧
    (tc_flower_l3l4 key mask fl).key.vlan_prio = fl.key.vlan_prio := by
  simp only [tc_flower_l3l4]
  split <;> simp

/-- The base stage writes only the EtherType into the flower key. -/
theorem tc_flower_base_key (m : Match) :
    (tc_flower_base m).key.eth_type = m.flow.dl_type ∧
    (tc_flower_base m).key.encap_eth_type = 0 ∧
    (tc_flower_base m).key.vlan_id = 0 ∧
    (tc_flower_base m).key.vlan_prio = 0 := by
  simp only [tc_flower_base]
  split <;> simp

/-- C4: with a non-zero VLAN TCI mask, the translation succeeds iff the mask
has the claim's acceptable shape (CFI set in mask and key, VID/PCP each fully
wild or fully exact, at least one exact) or is the all-ones-mask/zero-value
"no VLAN" form; the acceptable shape enables VLAN translation, the "no VLAN"
form bypasses it, and every other shape makes flow_put fail with EOPNOTSUPP
before any transport request. -/
theorem vlan_mask_acceptance (m : Match) (hm : m.masks.vlan_tci ≠ 0) :
    ((spec_vlan_acceptable m.flow.vlan_tci m.masks.vlan_tci
        ∨ (m.masks.vlan_tci = 0xffff ∧ m.flow.vlan_tci = 0)) ↔
      ∃ f, tc_flower_of_match m = Except.ok f) ∧
    (spec_vlan_acceptable m.flow.vlan_tci m.masks.vlan_tci →
       ∀ f, tc_flower_of_match m = Except.ok f →
         f.key.eth_type = ETH_TYPE_VLAN
         ∧ f.key.encap_eth_type = m.flow.dl_type) ∧
    (m.masks.vlan_tci = 0xffff ∧ m.flow.vlan_tci = 0 →
       ∀ f, tc_flower_of_match m = Except.ok f →
         f.key.vlan_id = 0 ∧ f.key.vlan_prio = 0 ∧ f.key.encap_eth_type = 0
         ∧ f.key.eth_type = m.flow.dl_type) ∧
    (¬ spec_vlan_acceptable m.flow.vlan_tci m.masks.vlan_tci →
     ¬ (m.masks.vlan_tci = 0xffff ∧ m.flow.vlan_tci = 0) →
       tc_flower_of_match m = Except.error EOPNOTSUPP ∧
       ∀ env info nd acts u rr cache prios, ¬ nd.ifindex < 0 →
         (netdev_tc_flow_put env info nd m acts u rr cache prios).err
           = EOPNOTSUPP ∧
         (netdev_tc_flow_put env info nd m acts u rr cache prios).requests
           = []) := by
  have hiff := spec_vlan_acceptable_iff m.flow.vlan_tci m.masks.vlan_tci
  by_cases hc : (m.masks.vlan_tci &&& VLAN_CFI ≠ 0
      ∧ m.flow.vlan_tci &&& VLAN_CFI ≠ 0
      ∧ (m.masks.vlan_tci &&& VLAN_VID_MASK = 0
         ∨ m.masks.vlan_tci &&& VLAN_VID_MASK = VLAN_VID_MASK)
      ∧ (m.masks.vlan_tci &&& VLAN_PCP_MASK = 0
         ∨ m.masks.vlan_tci &&& VLAN_PCP_MASK = VLAN_PCP_MASK)
      ∧ (m.masks.vlan_tci &&& VLAN_VID_MASK ≠ 0
         ∨ m.masks.vlan_tci &&& VLAN_PCP_MASK ≠ 0))
  · have hspec : spec_vlan_acceptable m.flow.vlan_tci m.masks.vlan_tci :=
      hiff.mpr hc
    have hB : ¬ (m.masks.vlan_tci = 0xffff ∧ m.flow.vlan_tci = 0) := by
      rintro ⟨h1, h2⟩
      apply hc.2.1
      rw [h2]
      decide
    have hok : tc_flower_of_match m = Except.ok (tc_flower_l3l4 m.flow m.masks
        ({ (if m.masks.vlan_tci &&& VLAN_PCP_MASK ≠ 0 then
              { (if m.masks.vlan_tci &&& VLAN_VID_MASK ≠ 0 then
                   { tc_flower_base m with key := { (tc_flower_base m).key with
                       vlan_id := vlan_tci_to_vid m.flow.vlan_tci } }
                 else tc_flower_base m) with key := { (if m.masks.vlan_tci &&& VLAN_VID_MASK ≠ 0 then
                   { tc_flower_base m with key := { (tc_flower_base m).key with
                       vlan_id := vlan_tci_to_vid m.flow.vlan_tci } }
                 else tc_flower_base m).key with
                   vlan_prio := vlan_tci_to_pcp m.flow.vlan_tci } }
            else
              (if m.masks.vlan_tci &&& VLAN_VID_MASK ≠ 0 then
                 { tc_flower_base m with key := { (tc_flower_base m).key with
                     vlan_id := vlan_tci_to_vid m.flow.vlan_tci } }
               else tc_flower_base m)) with
          key := { (if m.masks.vlan_tci &&& VLAN_PCP_MASK ≠ 0 then
              { (if m.masks.vlan_tci &&& VLAN_VID_MASK ≠ 0 then
                   { tc_flower_base m with key := { (tc_flower_base m).key with
                       vlan_id := vlan_tci_to_vid m.flow.vlan_tci } }
                 else tc_flower_base m) with key := { (if m.masks.vlan_tci &&& VLAN_VID_MASK ≠ 0 then
                   { tc_flower_base m with key := { (tc_flower_base m).key with
                       vlan_id := vlan_tci_to_vid m.flow.vlan_tci } }
                 else tc_flower_base m).key with
                   vlan_prio := vlan_tci_to_pcp m.flow.vlan_tci } }
            else
              (if m.masks.vlan_tci &&& VLAN_VID_MASK ≠ 0 then
                 { tc_flower_base m with key := { (tc_flower_base m).key with
                     vlan_id := vlan_tci_to_vid m.flow.vlan_tci } }
               else tc_flower_base m)).key with
            encap_eth_type := m.flow.dl_type, eth_type := ETH_TYPE_VLAN } })) := by
      simp only [tc_flower_of_match]
      rw [if_pos hm, if_pos hc]
    refine ⟨iff_of_true (Or.inl hspec) ⟨_, hok⟩, ?_, ?_, ?_⟩
    · intro _ f hf
      rw [hok] at hf
      injection hf with hf2
      rw [← hf2]
      refine ⟨?_, ?_⟩
      · rw [(tc_flower_l3l4_preserves m.flow m.masks _).1]
      · rw [(tc_flower_l3l4_preserves m.flow m.masks _).2.1]
    · intro hb
      exact absurd hb hB
    · intro hns
      exact absurd hspec hns
  · have hnspec : ¬ spec_vlan_acceptable m.flow.vlan_tci m.masks.vlan_tci :=
      fun hs => hc (hiff.mp hs)
    by_cases hb : (m.masks.vlan_tci = 0xffff ∧ m.flow.vlan_tci = 0)
    · have hok : tc_flower_of_match m
          = Except.ok (tc_flower_l3l4 m.flow m.masks (tc_flower_base m)) := by
        simp only [tc_flower_of_match]
        rw [if_pos hm, if_neg hc, if_pos hb]
      refine ⟨iff_of_true (Or.inr hb) ⟨_, hok⟩, ?_, ?_, ?_⟩
      · intro hs
        exact absurd hs hnspec
      · intro _ f hf
        rw [hok] at hf
        injection hf with hf2
        rw [← hf2]
        obtain ⟨he, hen, hv, hp⟩ := tc_flower_l3l4_preserves m.flow m.masks
          (tc_flower_base m)
        obtain ⟨be, ben, bv, bp⟩ := tc_flower_base_key m
        exact ⟨hv.trans bv, hp.trans bp, hen.trans ben, he.trans be⟩
      · intro _ hnb
        exact absurd hb hnb
    · have herr : tc_flower_of_match m = Except.error EOPNOTSUPP := by
        simp only [tc_flower_of_match]
        rw [if_pos hm, if_neg hc, if_neg hb]
      refine ⟨?_, ?_, ?_, ?_⟩
      · apply iff_of_false
        · rintro (hs | hb2)
          · exact hnspec hs
          · exact hb hb2
        · rintro ⟨f, hf⟩
          rw [herr] at hf
          exact Except.noConfusion hf
      · intro hs
        exact absurd hs hnspec
      · intro hb2
        exact absurd hb2 hb
      · intro _ _
        refine ⟨herr, ?_⟩
        intro env info nd acts u rr cache prios hif
        constructor <;> simp [netdev_tc_flow_put, hif, herr]

/-- Witness for C4: an exact-VID/wild-PCP/CFI mask is accepted, a partial
VID mask is rejected with EOPNOTSUPP by the translation and by flow_put. -/
theorem vlan_mask_acceptance_witness :
    (tc_flower_of_match mV).toOption.isSome = true ∧
    tc_flower_of_match mW = Except.error EOPNOTSUPP ∧
    (netdev_tc_flow_put env0 info0 nd0 mW [] 7 (Except.ok 5) cache_empty
        prios_empty).err = EOPNOTSUPP := by
  have hv := vlan_mask_acceptance mV (by decide)
  have hw := vlan_mask_acceptance mW (by decide)
  have hvok := hv.1.mp (Or.inl (by unfold spec_vlan_acceptable; decide))
  have hwbad := hw.2.2.2 (by unfold spec_vlan_acceptable; decide) (by decide)
  obtain ⟨f, hf⟩ := hvok
  refine ⟨by rw [hf]; rfl, hwbad.1, ?_⟩
  exact (hwbad.2 env0 info0 nd0 [] 7 (Except.ok 5) cache_empty prios_empty
    (by decide)).1

/-- find? distributes over an append whose left part already finds a hit. -/
theorem find?_append_some_left {α : Type} (l l2 : List α) (p : α → Bool)
    (d : α) (h : l.find? p = some d) : (l ++ l2).find? p = some d := by
  rw [List.find?_append, h]
  rfl

/-- find? skips an appended-to prefix with no hit. -/
theorem find?_append_none_left {α : Type} (l l2 : List α) (p : α → Bool)
    (h : l.find? p = none) : (l ++ l2).find? p = l2.find? p := by
  rw [List.find?_append, h]
  rfl

/-- A recorded signature makes the allocator return its priority without
touching the state. -/
theorem get_prio_found (st : PrioState) (f : TcFlower) (d : PrioMapData)
    (h : st.prios.find? (prio_sig_matches f) = some d) :
    get_prio_for_tc_flower st f = (d.prio, st) := by
  unfold get_prio_for_tc_flower
  rw [h]

/-- Any allocator call preserves an existing signature-to-priority record. -/
theorem get_prio_preserves_found (st : PrioState) (f g : TcFlower)
    (d : PrioMapData)
    (h : st.prios.find? (prio_sig_matches f) = some d) :
    (get_prio_for_tc_flower st g).2.prios.find? (prio_sig_matches f)
      = some d := by
  unfold get_prio_for_tc_flower
  cases hg : st.prios.find? (prio_sig_matches g) with
  | some e => exact h
  | none => exact find?_append_some_left _ _ _ _ h

/-- Any sequence of allocator calls preserves an existing record. -/
theorem run_prios_preserves_found (st : PrioState) (f : TcFlower)
    (d : PrioMapData) (gs : List TcFlower)
    (h : st.prios.find? (prio_sig_matches f) = some d) :
    (run_prios st gs).prios.find? (prio_sig_matches f) = some d := by
  induction gs generalizing st with
  | nil => exact h
  | cons g rest ih => exact ih _ (get_prio_preserves_found st f g d h)

/-- Byte-equal signatures have identical lookup predicates. -/
theorem prio_sig_matches_congr (f g : TcFlower) (hm : f.mask = g.mask)
    (hp : f.key.eth_type = g.key.eth_type) :
    prio_sig_matches f = prio_sig_matches g := by
  funext d
  unfold prio_sig_matches
  rw [hm, hp]

/-- A freshly recorded mapping matches its own signature. -/
theorem prio_sig_matches_self (f : TcFlower) (p : Nat) :
    prio_sig_matches f ⟨f.mask, f.key.eth_type, p⟩ = true := by
  simp [prio_sig_matches]

/-- C3: from any well-formed allocator state, an allocation keeps the state
well-formed; byte-equal signatures (flower mask plus eth_type protocol) get
the same priority on every later call, across any interleaved allocations;
a never-seen signature is assigned from the monotonic counter (`++last_prio`,
truncated to uint16_t, hence exactly the next integer while the counter is
below 2^16); and distinct allocated signatures carry priorities in
first-seen order, never colliding, while the table holds fewer than 2^16
entries (nothing is ever freed). -/
theorem prio_allocator_props (st : PrioState) (f g : TcFlower)
    (gs : List TcFlower) (hwf : prioWf st) :
    prioWf (get_prio_for_tc_flower st f).2 ∧
    (f.mask = g.mask → f.key.eth_type = g.key.eth_type →
       (get_prio_for_tc_flower
           (run_prios (get_prio_for_tc_flower st f).2 gs) g).1
         = (get_prio_for_tc_flower st f).1) ∧
    (st.prios.find? (prio_sig_matches f) = none →
       (get_prio_for_tc_flower st f).1 = (st.last_prio + 1) % UINT16_LIMIT ∧
       (get_prio_for_tc_flower st f).2.last_prio = st.last_prio + 1 ∧
       (st.last_prio + 1 < UINT16_LIMIT →
          (get_prio_for_tc_flower st f).1 = st.last_prio + 1)) ∧
    (st.prios.length < UINT16_LIMIT →
       ∀ i j, (hi : i < st.prios.length) → (hj : j < st.prios.length) →
         i < j →
         (st.prios.get ⟨i, hi⟩).prio < (st.prios.get ⟨j, hj⟩).prio) := by
  have hval : ∀ k, (hk : k < st.prios.length) →
      (st.prios.get ⟨k, hk⟩).prio = (k + 1) % UINT16_LIMIT := by
    intro k hk
    have hk1 : k < (st.prios.map (fun d => d.prio)).length := by simpa using hk
    have h1 := List.getElem_of_eq hwf.2.2 hk1
    simp only [List.getElem_map, List.getElem_range] at h1
    simpa using h1
  refine ⟨?_, ?_, ?_, ?_⟩
  · cases hf : st.prios.find? (prio_sig_matches f) with
    | some d =>
        rw [get_prio_found st f d hf]
        exact hwf
    | none =>
        simp only [get_prio_for_tc_flower, hf]
        refine ⟨?_, ?_, ?_⟩
        · rw [List.length_append, hwf.1]
          rfl
        · rw [List.map_append]
          refine List.Nodup.append hwf.2.1 (List.nodup_singleton _) ?_
          rw [List.map_singleton]
          refine List.disjoint_singleton.2 ?_
          intro hmem
          obtain ⟨d, hd, hsig⟩ := List.mem_map.mp hmem
          have hdm : d.mask = f.mask ∧ d.protocol = f.key.eth_type := by
            simpa using hsig
          have hmatch : prio_sig_matches f d = true := by
            simp [prio_sig_matches, hdm.1, hdm.2]
          exact (List.find?_eq_none.mp hf d hd) hmatch
        · rw [List.map_append, hwf.2.2, List.length_append, hwf.1]
          rw [List.length_singleton, ← Nat.succ_eq_add_one, List.range_succ]
          rw [List.map_append]
          rfl
  · intro hmask hproto
    cases hf : st.prios.find? (prio_sig_matches f) with
    | some d =>
        rw [get_prio_found st f d hf]
        show (get_prio_for_tc_flower (run_prios st gs) g).1 = d.prio
        have h1 : (run_prios st gs).prios.find? (prio_sig_matches g)
            = some d := by
          rw [← prio_sig_matches_congr f g hmask hproto]
          exact run_prios_preserves_found st f d gs hf
        rw [get_prio_found _ g d h1]
    | none =>
        have hx : (get_prio_for_tc_flower st f).2.prios.find?
              (prio_sig_matches f)
            = some ⟨f.mask, f.key.eth_type, (st.last_prio + 1) % UINT16_LIMIT⟩ := by
          simp only [get_prio_for_tc_flower, hf]
          rw [find?_append_none_left _ _ _ hf]
          simp [prio_sig_matches_self]
        have h1 := run_prios_preserves_found _ f _ gs hx
        have h2 : (run_prios (get_prio_for_tc_flower st f).2 gs).prios.find?
              (prio_sig_matches g)
            = some ⟨f.mask, f.key.eth_type, (st.last_prio + 1) % UINT16_LIMIT⟩ := by
          rw [← prio_sig_matches_congr f g hmask hproto]
          exact h1
        rw [get_prio_found _ g _ h2]
        simp only [get_prio_for_tc_flower, hf]
  · intro hf
    simp only [get_prio_for_tc_flower, hf]
    refine ⟨trivial, trivial, ?_⟩
    intro hlt
    exact Nat.mod_eq_of_lt hlt
  · intro hlen i j hi hj hij
    rw [hval i hi, hval j hj]
    have h1 : i + 1 < UINT16_LIMIT := by omega
    have h2 : j + 1 < UINT16_LIMIT := by omega
    rw [Nat.mod_eq_of_lt h1, Nat.mod_eq_of_lt h2]
    omega

/-- Witness for C3: from the empty table, the first allocation returns 1, a
byte-equal signature still returns 1 after an interleaved allocation, and
the state stays well-formed. -/
theorem prio_allocator_props_witness :
    (get_prio_for_tc_flower prios_empty flower0).1 = 1 ∧
    (get_prio_for_tc_flower
        (run_prios (get_prio_for_tc_flower prios_empty flower0).2 [flowerX])
        flower0).1 = 1 ∧
    prioWf (get_prio_for_tc_flower prios_empty flower0).2 := by
  have h := prio_allocator_props prios_empty flower0 flower0 [flowerX]
    ⟨rfl, by decide, rfl⟩
  have hfresh := (h.2.2.1 (by rfl)).2.2 (by decide)
  refine ⟨hfresh, ?_, h.1⟩
  rw [h.2.1 rfl rfl]
  exact hfresh

/-- C6: every create-or-replace request flow_put issues carries a flower
whose cookie is exactly the caller's UFID (in particular on every successful
put the installed filter's cookie is the byte-identical UFID); and dump_next
resolves a record's identity preferentially from that cookie, falls back to
the reverse cache lookup (prio, handle, ifindex) when the cookie is absent,
and skips the record entirely when neither source yields a UFID. -/
theorem cookie_and_dump_identity
    (env : OffloadEnv) (info : PutInfo) (nd : Netdev) (m : Match)
    (acts : List Action) (u : UFID) (rr : Except Nat Nat)
    (cache : CacheState) (prios : PrioState) (dump : DumpState)
    (flower : TcFlower) (rest : List (Option TcFlower)) (pm : ParsedMatch)
    (hpm : parse_tc_flower_to_match env flower = Except.ok pm) :
    (∀ i p h f, TcRequest.replace_flower i p h f
        ∈ (netdev_tc_flow_put env info nd m acts u rr cache prios).requests →
        f.act_cookie = some u) ∧
    (∀ u2, flower.act_cookie = some u2 →
       netdev_tc_flow_dump_next env cache dump (some flower :: rest)
         = some (⟨u2, fixup_in_port pm dump.port⟩, rest)) ∧
    (∀ u3, flower.act_cookie = none →
       find_ufid cache flower.prio flower.handle dump.netdev = some u3 →
       netdev_tc_flow_dump_next env cache dump (some flower :: rest)
         = some (⟨u3, fixup_in_port pm dump.port⟩, rest)) ∧
    (flower.act_cookie = none →
       find_ufid cache flower.prio flower.handle dump.netdev = none →
       netdev_tc_flow_dump_next env cache dump (some flower :: rest)
         = netdev_tc_flow_dump_next env cache dump rest) := by
  refine ⟨?_, ?_, ?_, ?_⟩
  · intro i p h f
    by_cases hif : nd.ifindex < 0
    · unfold netdev_tc_flow_put
      rw [if_pos hif]
      intro hmem
      simp at hmem
    · unfold netdev_tc_flow_put
      rw [if_neg hif]
      repeat' split
      all_goals intro hmem
      all_goals simp_all
  · intro u2 hc
    rw [netdev_tc_flow_dump_next, hpm, hc]
  · intro u3 hc hfind
    rw [netdev_tc_flow_dump_next, hpm, hc, hfind]
  · intro hc hfind
    rw [netdev_tc_flow_dump_next, hpm, hc, hfind]

/-- Witness for C6: the concrete replace request of a successful put carries
the ufid as cookie, and a cookie-bearing dump record is yielded under that
cookie with the rest of the cursor untouched. -/
theorem cookie_and_dump_identity_witness :
    flwC.act_cookie = some 7 ∧
    netdev_tc_flow_dump_next env0 cache_empty dump0 [some flowerC]
      = some (⟨42, fixup_in_port pmC dump0.port⟩, []) := by
  have h := cookie_and_dump_identity env0 info0 nd0 m0 [] 7 (Except.ok 11)
    cache_empty prios_empty dump0 flowerC [] pmC (by rfl)
  exact ⟨h.1 4 1 0 flwC (by decide), h.2.1 42 (by rfl)⟩

end OvsOffload
